import Mathlib

/-!
Shallow embedding of `src/cutadapt/filters.py`: read-routing and
output-demultiplexing stages (filters, redirectors, demultiplexers,
side-channel annotators) together with the shared lazy-open utility.

Python reads become a `Read` structure; match records become `Match`;
the lazily created `dnaio` writers are modelled by numeric writer ids
(the index into the log of open events), and each stateful stage is a
structure threaded explicitly through its `call`/`close` operations.
Logs (`opens`, `writes`, `closes`) record the externally visible I/O
actions so that claims about "opened exactly once" or "released twice"
are statable.  A Python call that would raise `TypeError` (calling a
`None` filter) is modelled with `Option`.
-/

/-- One sequencing read: name/header, sequence, optional qualities. -/
structure Read where
  name : String
  sequence : String
  qualities : Option String
deriving Repr, DecidableEq

/-- Length of a read, `len(read)` in Python: length of the sequence. -/
def Read.len (r : Read) : Nat := r.sequence.length

/-- One adapter match record, at the interface this module consumes:
adapter name, the rest-of-sequence fragment, the wildcard string. -/
structure Match where
  adapterName : String
  rest : String
  wildcards : String
deriving Repr, DecidableEq

abbrev Matches := List Match

/-- Constant `DISCARD = True` from filters.py. -/
def DISCARD : Bool := true

/-- Constant `KEEP = False` from filters.py. -/
def KEEP : Bool := false

/-- A single-end filter predicate: `__call__(self, read, matches) -> bool`. -/
abbrev SEFilter := Read → Matches → Bool

/-- Case-insensitive N count, `read.sequence.lower().count('n')`. -/
def nCount (r : Read) : Nat :=
  (r.sequence.toList.filter (fun c => c.toLower = 'n')).length

/-- Constructor `NContentFilter.__init__` stores `is_proportion = count < 1.0` and
`cutoff = count`.  Python floats are modelled as rationals. -/
structure NContentFilter where
  isProportion : Bool
  cutoff : ℚ
deriving Repr, DecidableEq

def NContentFilter.init (count : ℚ) : NContentFilter :=
  { isProportion := decide (count < 1), cutoff := count }

/-- Predicate `NContentFilter.__call__(read, matches)`. -/
def NContentFilter.call (f : NContentFilter) (r : Read) (_ms : Matches) : Bool :=
  let n := nCount r
  if f.isProportion then
    if r.len = 0 then false
    else decide ((n : ℚ) / (r.len : ℚ) > f.cutoff)
  else
    decide ((n : ℚ) > f.cutoff)

/-- The four `_is_filtered_*` strategies a `PairedRedirector` selects among
once, at construction. -/
inductive PairStrategy where
  | first
  | second
  | anyOf
  | bothOf
deriving Repr, DecidableEq

/-- State of a `PairedRedirector`: the two optional filters, the strategy chosen
at construction, the counters, and whether a writer is attached. -/
structure PairedRedirector where
  filter : Option SEFilter
  filter2 : Option SEFilter
  strategy : PairStrategy
  filtered : Nat
  written : Nat
  written_bp : Nat × Nat
  hasWriter : Bool

/-- Constructor `PairedRedirector.__init__`: raises `ValueError` when the mode is not
one of any/both/first, otherwise resolves the strategy:
filter2 absent -> first; filter absent -> second; else by mode. -/
def PairedRedirector.init (hasWriter : Bool) (filter filter2 : Option SEFilter)
    (pair_filter_mode : String) : Except String PairedRedirector :=
  if pair_filter_mode = "any" ∨ pair_filter_mode = "both" ∨ pair_filter_mode = "first" then
    .ok { filter := filter
          filter2 := filter2
          strategy :=
            if filter2.isNone then .first
            else if filter.isNone then .second
            else if pair_filter_mode = "any" then .anyOf
            else if pair_filter_mode = "both" then .bothOf
            else .first
          filtered := 0
          written := 0
          written_bp := (0, 0)
          hasWriter := hasWriter }
  else
    .error "pair_filter_mode must be any, both or first"

/-- The selected `_is_filtered` dispatch.  Calling an absent (`None`)
filter is a Python `TypeError`, modelled as `none`; `or`/`and`
short-circuit as in Python. -/
def PairedRedirector.isFiltered (pr : PairedRedirector) (read1 read2 : Read)
    (matches1 matches2 : Matches) : Option Bool :=
  match pr.strategy with
  | .first => pr.filter.map (fun f => f read1 matches1)
  | .second => pr.filter2.map (fun f => f read2 matches2)
  | .anyOf =>
    match pr.filter with
    | none => none
    | some f =>
      if f read1 matches1 then some true
      else pr.filter2.map (fun g => g read2 matches2)
  | .bothOf =>
    match pr.filter with
    | none => none
    | some f =>
      if f read1 matches1 then pr.filter2.map (fun g => g read2 matches2)
      else some false

/-- Dispatch `PairedRedirector.__call__`: evaluate the strategy; on a positive
decision bump `filtered`, write through the attached writer if present and
report `DISCARD`; otherwise report `KEEP`.  `none` models the `TypeError`
of invoking an absent filter. -/
def PairedRedirector.call (pr : PairedRedirector) (read1 read2 : Read)
    (matches1 matches2 : Matches) : Option (Bool × PairedRedirector) :=
  match pr.isFiltered read1 read2 matches1 matches2 with
  | none => none
  | some true =>
    let pr := { pr with filtered := pr.filtered + 1 }
    let pr :=
      if pr.hasWriter then
        { pr with written := pr.written + 1
                  written_bp := (pr.written_bp.1 + read1.len, pr.written_bp.2 + read2.len) }
      else pr
    some (DISCARD, pr)
  | some false => some (KEEP, pr)

/-- The consumed/discard signal a `PairedRedirector.__call__` returns
(`none` when the call raises). -/
def PairedRedirector.discards (pr : PairedRedirector) (read1 read2 : Read)
    (matches1 matches2 : Matches) : Option Bool :=
  (pr.call read1 read2 matches1 matches2).map Prod.fst

/-- Outcome of one `dnaio.open` attempt: a writer id, or an `OSError`
whose errno either is `EMFILE` or something else. -/
inductive OSErr where
  | emfile
  | other (code : Nat)
deriving Repr, DecidableEq

/-- Utility `_open_raise_limit(path, qualities)` against an environment `attempt`
giving the result of the k-th open attempt.  Returns the final outcome
together with (number of open attempts made, number of
`raise_open_files_limit` invocations). -/
def open_raise_limit (attempt : Nat → Except OSErr Nat) :
    Except OSErr Nat × (Nat × Nat) :=
  match attempt 0 with
  | .ok f => (.ok f, (1, 0))
  | .error e =>
    if e = .emfile then (attempt 1, (2, 1))
    else (.error e, (1, 0))

/-- Python `str.replace` on character lists: replace every occurrence of
`pattern` left to right, non-overlapping.  Structural recursion on a fuel
argument (one unit per emitted position) keeps it kernel-reducible. -/
def replaceAll (pattern repl : List Char) : Nat → List Char → List Char
  | _, [] => []
  | 0, s => s
  | fuel + 1, c :: rest =>
    if pattern ≠ [] ∧ pattern.isPrefixOf (c :: rest) then
      repl ++ replaceAll pattern repl fuel (rest.drop (pattern.length - 1))
    else
      c :: replaceAll pattern repl fuel rest

/-- Python `s.replace(pattern, repl)` (for the non-empty patterns this
module uses). -/
def stringReplace (s pattern repl : String) : String :=
  ⟨replaceAll pattern.data repl.data s.data.length s.data⟩

/-- State of a `Demultiplexer`.  Writers are numeric ids (index into the
`opens` log); the cache is the insertion-ordered association list
`writers`; `opens`, `writes` and `closes` log the externally visible
actions on writers. -/
structure Demultiplexer where
  template : String
  untrimmed_path : Option String
  untrimmed_writer : Option Nat
  writers : List (String × Nat)
  written : Nat
  written_bp : Nat × Nat
  opens : List String
  writes : List (Nat × Read)
  closes : List Nat
deriving Repr, DecidableEq

/-- Constructor `Demultiplexer.__init__(path_template, untrimmed_path, qualities)`
(the qualities flag only parameterises `dnaio.open` and is omitted from
the writer-id model). -/
def Demultiplexer.init (path_template : String) (untrimmed_path : Option String) :
    Demultiplexer :=
  { template := path_template
    untrimmed_path := untrimmed_path
    untrimmed_writer := none
    writers := []
    written := 0
    written_bp := (0, 0)
    opens := []
    writes := []
    closes := [] }

/-- Dispatch `Demultiplexer.__call__(read, matches)`: route by the last match's
adapter name, lazily opening a writer for `template.replace('{name}', name)`
on first use; with no matches, lazily open the untrimmed writer if an
untrimmed path was configured, else silently drop.  Always `DISCARD`. -/
def Demultiplexer.call (d : Demultiplexer) (r : Read) (ms : Matches) :
    Bool × Demultiplexer :=
  match ms.getLast? with
  | some m =>
    let name := m.adapterName
    match d.writers.lookup name with
    | some wid =>
      (DISCARD, { d with written := d.written + 1
                         written_bp := (d.written_bp.1 + r.len, d.written_bp.2)
                         writes := d.writes ++ [(wid, r)] })
    | none =>
      let path := stringReplace d.template "\x7bname\x7d" name
      let wid := d.opens.length
      (DISCARD, { d with writers := d.writers ++ [(name, wid)]
                         opens := d.opens ++ [path]
                         written := d.written + 1
                         written_bp := (d.written_bp.1 + r.len, d.written_bp.2)
                         writes := d.writes ++ [(wid, r)] })
  | none =>
    match d.untrimmed_writer with
    | some wid =>
      (DISCARD, { d with written := d.written + 1
                         written_bp := (d.written_bp.1 + r.len, d.written_bp.2)
                         writes := d.writes ++ [(wid, r)] })
    | none =>
      match d.untrimmed_path with
      | some path =>
        let wid := d.opens.length
        (DISCARD, { d with untrimmed_writer := some wid
                           opens := d.opens ++ [path]
                           written := d.written + 1
                           written_bp := (d.written_bp.1 + r.len, d.written_bp.2)
                           writes := d.writes ++ [(wid, r)] })
      | none => (DISCARD, d)

/-- Release `Demultiplexer.close`: close every cached writer, then the untrimmed
writer if it was opened.  No closed-state flag is kept. -/
def Demultiplexer.close (d : Demultiplexer) : Demultiplexer :=
  let d1 := { d with closes := d.closes ++ d.writers.map Prod.snd }
  match d1.untrimmed_writer with
  | some wid => { d1 with closes := d1.closes ++ [wid] }
  | none => d1

/-- The writer ids a single `close()` call releases: every cache value,
plus the untrimmed writer when it was opened. -/
def Demultiplexer.releaseList (d : Demultiplexer) : List Nat :=
  d.writers.map Prod.snd ++ d.untrimmed_writer.toList

/-- State of a `PairedDemultiplexer`: two independent single-end demultiplexers. -/
structure PairedDemultiplexer where
  demultiplexer1 : Demultiplexer
  demultiplexer2 : Demultiplexer
deriving Repr, DecidableEq

def PairedDemultiplexer.init (path_template path_paired_template : String)
    (untrimmed_path untrimmed_paired_path : Option String) : PairedDemultiplexer :=
  { demultiplexer1 := Demultiplexer.init path_template untrimmed_path
    demultiplexer2 := Demultiplexer.init path_paired_template untrimmed_paired_path }

/-- Dispatch `PairedDemultiplexer.__call__(read1, read2, matches1, matches2)`:
routes both sides by `matches1` and — having no `return` statement —
falls off the end, so the Python call returns `None`, modelled as the
`none` signal (a returned boolean would be `some b`). -/
def PairedDemultiplexer.call (pd : PairedDemultiplexer) (read1 read2 : Read)
    (matches1 _matches2 : Matches) : Option Bool × PairedDemultiplexer :=
  let d1 := (pd.demultiplexer1.call read1 matches1).2
  let d2 := (pd.demultiplexer2.call read2 matches1).2
  (none, { demultiplexer1 := d1, demultiplexer2 := d2 })

def PairedDemultiplexer.close (pd : PairedDemultiplexer) : PairedDemultiplexer :=
  { demultiplexer1 := pd.demultiplexer1.close
    demultiplexer2 := pd.demultiplexer2.close }

/-- State of a `CombinatorialDemultiplexer`.  The cache key is the raw
`(name1, name2)` pair where a side without a match is `none`; each cache
value is the pair of writer ids for the R1 and R2 output files. -/
structure CombinatorialDemultiplexer where
  template : String
  paired_template : String
  untrimmed_name : Option String
  writers : List ((Option String × Option String) × (Nat × Nat))
  written : Nat
  written_bp : Nat × Nat
  opens : List String
  writes : List (Nat × Read)
  closes : List Nat
deriving Repr, DecidableEq

def CombinatorialDemultiplexer.init (path_template path_paired_template : String)
    (untrimmed_name : Option String) : CombinatorialDemultiplexer :=
  { template := path_template
    paired_template := path_paired_template
    untrimmed_name := untrimmed_name
    writers := []
    written := 0
    written_bp := (0, 0)
    opens := []
    writes := []
    closes := [] }

/-- Path substitution `CombinatorialDemultiplexer._make_path`. -/
def CombinatorialDemultiplexer.makePath (template name1 name2 : String) : String :=
  stringReplace (stringReplace template "\x7bname1\x7d" name1) "\x7bname2\x7d" name2

/-- The raw pre-substitution cache key derived from the two match lists:
last adapter name on each side, `none` when that side has no match. -/
def rawKey (matches1 matches2 : Matches) : Option String × Option String :=
  ((matches1.getLast?).map Match.adapterName, (matches2.getLast?).map Match.adapterName)

/-- Dispatch `CombinatorialDemultiplexer.__call__(read1, read2, matches1, matches2)`:
look up the raw key; on a miss substitute unmatched sides with
`untrimmed_name`, discarding the pair outright when a side stays `None`,
otherwise open the two writers and cache them under the raw key; then
write both reads through the cached pair.  Always `DISCARD`. -/
def CombinatorialDemultiplexer.call (cd : CombinatorialDemultiplexer)
    (read1 read2 : Read) (matches1 matches2 : Matches) :
    Bool × CombinatorialDemultiplexer :=
  let key := rawKey matches1 matches2
  let cached :=
    match cd.writers.lookup key with
    | some ws => some (cd, ws)
    | none =>
      let name1 := match key.1 with | some n => some n | none => cd.untrimmed_name
      let name2 := match key.2 with | some n => some n | none => cd.untrimmed_name
      match name1, name2 with
      | some n1, some n2 =>
        let path1 := CombinatorialDemultiplexer.makePath cd.template n1 n2
        let path2 := CombinatorialDemultiplexer.makePath cd.paired_template n1 n2
        let w1 := cd.opens.length
        let w2 := cd.opens.length + 1
        some ({ cd with opens := cd.opens ++ [path1, path2]
                        writers := cd.writers ++ [(key, (w1, w2))] },
              (w1, w2))
      | _, _ => none
  match cached with
  | none => (DISCARD, cd)
  | some (cd, (w1, w2)) =>
    (DISCARD, { cd with written := cd.written + 1
                        written_bp := (cd.written_bp.1 + read1.len, cd.written_bp.2 + read2.len)
                        writes := cd.writes ++ [(w1, read1), (w2, read2)] })

/-- Release `CombinatorialDemultiplexer.close`: close both writers of every
cached pair, in cache order. -/
def CombinatorialDemultiplexer.close (cd : CombinatorialDemultiplexer) :
    CombinatorialDemultiplexer :=
  { cd with closes := cd.closes ++ cd.writers.flatMap (fun kv => [kv.2.1, kv.2.2]) }

/-- The writer ids a single `CombinatorialDemultiplexer.close()` call
releases. -/
def CombinatorialDemultiplexer.releaseList (cd : CombinatorialDemultiplexer) : List Nat :=
  cd.writers.flatMap (fun kv => [kv.2.1, kv.2.2])

/-- Annotator `RestFileWriter.__call__(read, matches)` acting on the auxiliary text
sink, modelled as the list of emitted lines: when matches are present and
the last match's rest fragment is non-empty, `print(rest, read.name)`
emits the rest and the name joined by the default separator, a space.
Always `KEEP`. -/
def RestFileWriter.call (lines : List String) (r : Read) (ms : Matches) :
    Bool × List String :=
  match ms.getLast? with
  | some m =>
    if 0 < m.rest.length then (KEEP, lines ++ [m.rest ++ " " ++ r.name])
    else (KEEP, lines)
  | none => (KEEP, lines)

/-! ## Concrete fixtures used by witnesses and counterexamples -/

def readACGT : Read := { name := "readA", sequence := "ACGT", qualities := none }

def readEmpty : Read := { name := "empty", sequence := "", qualities := none }

def readOneN : Read := { name := "oneN", sequence := "NACG", qualities := none }

def readTwoN : Read := { name := "twoN", sequence := "NAnG", qualities := none }

def matchA : Match := { adapterName := "adA", rest := "GG", wildcards := "" }

def matchB : Match := { adapterName := "adB", rest := "", wildcards := "" }

/-! ## Claims -/

/-- C1: the claim says every `PairedDemultiplexer.__call__` returns the
consumed signal `True`; the source's `__call__` has no `return`
statement, so the Python call returns `None` — modelled here: the
returned signal is `none`, never `some DISCARD`. -/
theorem spec_C1 (pd : PairedDemultiplexer) (read1 read2 : Read)
    (matches1 matches2 : Matches) :
    (pd.call read1 read2 matches1 matches2).1 = none
    ∧ (pd.call read1 read2 matches1 matches2).1 ≠ some DISCARD := by
  constructor <;> simp [PairedDemultiplexer.call]

/-- C3: `NContentFilter` with cutoff below 1 discards iff the read is
non-empty and its case-insensitive N-fraction strictly exceeds the
cutoff — an empty read is never discarded and a read at exactly the
cutoff fraction is kept; with cutoff at least 1 it discards iff the
N-count strictly exceeds the cutoff, so cutoff 1 keeps a read with one N
and discards one with two Ns. -/
theorem spec_C3 (c : ℚ) (r : Read) (ms : Matches) :
    (c < 1 → ((NContentFilter.init c).call r ms = true ↔
      0 < r.len ∧ (nCount r : ℚ) / (r.len : ℚ) > c))
    ∧ (c < 1 → r.len = 0 → (NContentFilter.init c).call r ms = false)
    ∧ (c < 1 → 0 < r.len → (nCount r : ℚ) = c * (r.len : ℚ) →
      (NContentFilter.init c).call r ms = false)
    ∧ (1 ≤ c → ((NContentFilter.init c).call r ms = true ↔ (nCount r : ℚ) > c))
    ∧ (nCount r = 1 → (NContentFilter.init 1).call r ms = false)
    ∧ (nCount r = 2 → (NContentFilter.init 1).call r ms = true) := by
  refine ⟨?_, ?_, ?_, ?_, ?_, ?_⟩
  · intro hc
    rcases Nat.eq_zero_or_pos r.len with h0 | h0
    · simp [NContentFilter.init, NContentFilter.call, hc, h0]
    · simp [NContentFilter.init, NContentFilter.call, hc, h0, h0.ne']
  · intro hc h0
    simp [NContentFilter.init, NContentFilter.call, hc, h0]
  · intro hc hlen hn
    have hlen0 : (r.len : ℚ) ≠ 0 := Nat.cast_ne_zero.mpr hlen.ne'
    simp [NContentFilter.init, NContentFilter.call, hc, hlen.ne', hn,
      mul_div_assoc, div_self hlen0]
  · intro hc
    have hnc : ¬ (c < 1) := not_lt.mpr hc
    simp [NContentFilter.init, NContentFilter.call, hnc]
  · intro hn
    simp [NContentFilter.init, NContentFilter.call, hn]
  · intro hn
    simp [NContentFilter.init, NContentFilter.call, hn]

/-- Witness for C3: with cutoff 1/2 the empty read is kept, and with
cutoff 1 a read with one N is kept while a read with two Ns (one of them
lowercase) is discarded. -/
theorem spec_C3_witness :
    ((1 : ℚ)/2 < 1 ∧ (NContentFilter.init ((1 : ℚ)/2)).call readEmpty [] = false)
    ∧ (nCount readOneN = 1 ∧ (NContentFilter.init 1).call readOneN [] = false)
    ∧ (nCount readTwoN = 2 ∧ (NContentFilter.init 1).call readTwoN [] = true) :=
  ⟨⟨by norm_num, (spec_C3 ((1 : ℚ)/2) readEmpty []).2.1 (by norm_num) rfl⟩,
   ⟨by decide, (spec_C3 ((1 : ℚ)/2) readOneN []).2.2.2.2.1 (by decide)⟩,
   ⟨by decide, (spec_C3 ((1 : ℚ)/2) readTwoN []).2.2.2.2.2 (by decide)⟩⟩

/-- C6: `_open_raise_limit` — a first attempt that succeeds is returned
with no limit raise; a first failure with `EMFILE` raises the soft limit
exactly once and retries exactly once, the retry's outcome (success or
failure) propagating unmodified; any other first failure propagates
unmodified with no raise and no retry. -/
theorem spec_C6 (attempt : Nat → Except OSErr Nat) :
    (∀ w, attempt 0 = .ok w → open_raise_limit attempt = (.ok w, (1, 0)))
    ∧ (attempt 0 = .error .emfile → open_raise_limit attempt = (attempt 1, (2, 1)))
    ∧ (∀ code, attempt 0 = .error (.other code) →
      open_raise_limit attempt = (.error (.other code), (1, 0))) := by
  refine ⟨?_, ?_, ?_⟩
  · intro w h
    simp [open_raise_limit, h]
  · intro h
    simp [open_raise_limit, h]
  · intro code h
    simp [open_raise_limit, h]

/-- An environment whose first open attempt hits `EMFILE` and whose
retry fails with a different `OSError`. -/
def attemptEmfileThenOther : Nat → Except OSErr Nat :=
  fun k => if k = 0 then .error .emfile else .error (.other 5)

/-- Witness for C6: under `attemptEmfileThenOther` the limit is raised
once, the open is retried once, and the retry's distinct error
propagates unmodified. -/
theorem spec_C6_witness :
    attemptEmfileThenOther 0 = Except.error OSErr.emfile
    ∧ open_raise_limit attemptEmfileThenOther = (attemptEmfileThenOther 1, (2, 1))
    ∧ attemptEmfileThenOther 1 = Except.error (OSErr.other 5) :=
  ⟨rfl, (spec_C6 attemptEmfileThenOther).2.1 rfl, rfl⟩

/-- C8 counterexample: the claim says the appended line joins the rest
fragment and the read name with a tab; the source uses
`print(rest, read.name)` whose default separator is a space, so with
rest "GG" and name "readA" the line is "GG readA", not "GG\treadA". -/
theorem spec_C8_counterexample :
    (RestFileWriter.call [] readACGT [matchA]).2 = ["GG readA"]
    ∧ (RestFileWriter.call [] readACGT [matchA]).2 ≠ ["GG" ++ "\t" ++ "readA"] := by
  constructor <;> decide

/-- C8 (amended: space separator): `RestFileWriter` appends the line
`<rest> <read-name>` exactly when the match list is non-empty and the
last match's rest fragment is non-empty, and always reports not
consumed. -/
theorem spec_C8 (lines : List String) (r : Read) (ms : Matches) :
    (RestFileWriter.call lines r ms).1 = KEEP
    ∧ (RestFileWriter.call lines r ms).2 =
      lines ++ (if ms ≠ [] ∧ 0 < (((ms.getLast?).map Match.rest).getD "").length
                then [((ms.getLast?).map Match.rest).getD "" ++ " " ++ r.name]
                else []) := by
  cases hms : ms.getLast? with
  | none =>
    have h : ms = [] := List.getLast?_eq_none_iff.mp hms
    subst h
    simp [RestFileWriter.call]
  | some m =>
    have hne : ms ≠ [] := by
      intro he
      subst he
      simp at hms
    refine ⟨?_, ?_⟩
    · by_cases h : 0 < m.rest.length <;> simp [RestFileWriter.call, hms, h]
    · by_cases h : 0 < m.rest.length <;> simp [RestFileWriter.call, hms, hne, h]

/-- C9: `PairedRedirector` construction with a `pair_filter_mode` outside
any/both/first fails with the invalid-configuration error before any read
is processed; a mode inside the set constructs successfully. -/
theorem spec_C9 (w : Bool) (f1 f2 : Option SEFilter) (mode : String) :
    (¬ (mode = "any" ∨ mode = "both" ∨ mode = "first") →
      PairedRedirector.init w f1 f2 mode
        = .error "pair_filter_mode must be any, both or first")
    ∧ ((mode = "any" ∨ mode = "both" ∨ mode = "first") →
      ∃ pr, PairedRedirector.init w f1 f2 mode = .ok pr) := by
  constructor
  · intro h
    unfold PairedRedirector.init
    rw [if_neg h]
  · intro h
    unfold PairedRedirector.init
    rw [if_pos h]
    exact ⟨_, rfl⟩

/-- Witness for C9: the mode "bogus" is rejected at construction, the
mode "first" is accepted. -/
theorem spec_C9_witness :
    PairedRedirector.init true none none "bogus"
      = .error "pair_filter_mode must be any, both or first"
    ∧ ∃ pr, PairedRedirector.init true none none "first" = .ok pr :=
  ⟨(spec_C9 true none none "bogus").1 (by decide),
   (spec_C9 true none none "first").2 (by decide)⟩

/-- C10: constructing a `PairedRedirector` with both filters absent and a
valid mode succeeds (the absence of both filters is not rejected), the
first-read strategy is selected, and every subsequent call invokes the
absent filter1 and fails (`none` models the `TypeError`). -/
theorem spec_C10 (w : Bool) (mode : String) (read1 read2 : Read)
    (matches1 matches2 : Matches)
    (hm : mode = "any" ∨ mode = "both" ∨ mode = "first") :
    ∃ pr, PairedRedirector.init w none none mode = .ok pr
      ∧ pr.strategy = PairStrategy.first
      ∧ pr.call read1 read2 matches1 matches2 = none := by
  refine ⟨{ filter := none, filter2 := none, strategy := .first, filtered := 0,
            written := 0, written_bp := (0, 0), hasWriter := w }, ?_, rfl, rfl⟩
  unfold PairedRedirector.init
  rw [if_pos hm]
  simp

/-- Witness for C10: with mode "first" and both filters absent,
construction succeeds, the strategy is first, and the call fails. -/
theorem spec_C10_witness :
    ("first" = "any" ∨ "first" = "both" ∨ "first" = "first")
    ∧ ∃ pr, PairedRedirector.init false none none "first" = .ok pr
        ∧ pr.strategy = PairStrategy.first
        ∧ pr.call readACGT readACGT [] [] = none :=
  ⟨by decide, spec_C10 false "first" readACGT readACGT [] [] (by decide)⟩

/-- C2: the paired-redirector discard decision — with both filters
present: mode any discards iff either side's filter fires, mode both iff
both fire, mode first iff filter1 fires on read1, irrespective of read2;
with filter2 absent the decision is filter1(read1) under any requested
valid mode; with filter1 absent (filter2 present) it is filter2(read2). -/
theorem spec_C2 (w : Bool) (f1 f2 : SEFilter) (read1 read2 : Read)
    (matches1 matches2 : Matches) (mode : String)
    (hm : mode = "any" ∨ mode = "both" ∨ mode = "first") :
    ((PairedRedirector.init w (some f1) (some f2) "any").map
      (fun pr => pr.discards read1 read2 matches1 matches2)
        = .ok (some (f1 read1 matches1 || f2 read2 matches2)))
    ∧ ((PairedRedirector.init w (some f1) (some f2) "both").map
      (fun pr => pr.discards read1 read2 matches1 matches2)
        = .ok (some (f1 read1 matches1 && f2 read2 matches2)))
    ∧ ((PairedRedirector.init w (some f1) (some f2) "first").map
      (fun pr => pr.discards read1 read2 matches1 matches2)
        = .ok (some (f1 read1 matches1)))
    ∧ ((PairedRedirector.init w (some f1) none mode).map
      (fun pr => pr.discards read1 read2 matches1 matches2)
        = .ok (some (f1 read1 matches1)))
    ∧ ((PairedRedirector.init w none (some f2) mode).map
      (fun pr => pr.discards read1 read2 matches1 matches2)
        = .ok (some (f2 read2 matches2))) := by
  refine ⟨?_, ?_, ?_, ?_, ?_⟩
  · cases h1 : f1 read1 matches1 <;> cases h2 : f2 read2 matches2 <;>
      simp [PairedRedirector.init, PairedRedirector.discards, PairedRedirector.call,
        PairedRedirector.isFiltered, Except.map, h1, h2, DISCARD, KEEP]
  · cases h1 : f1 read1 matches1 <;> cases h2 : f2 read2 matches2 <;>
      simp [PairedRedirector.init, PairedRedirector.discards, PairedRedirector.call,
        PairedRedirector.isFiltered, Except.map, h1, h2, DISCARD, KEEP]
  · cases h1 : f1 read1 matches1 <;>
      simp [PairedRedirector.init, PairedRedirector.discards, PairedRedirector.call,
        PairedRedirector.isFiltered, Except.map, h1, DISCARD, KEEP]
  · rcases hm with h | h | h <;> subst h <;> cases h1 : f1 read1 matches1 <;>
      simp [PairedRedirector.init, PairedRedirector.discards, PairedRedirector.call,
        PairedRedirector.isFiltered, Except.map, h1, DISCARD, KEEP]
  · rcases hm with h | h | h <;> subst h <;> cases h2 : f2 read2 matches2 <;>
      simp [PairedRedirector.init, PairedRedirector.discards, PairedRedirector.call,
        PairedRedirector.isFiltered, Except.map, h2, DISCARD, KEEP]

/-- A filter firing on reads shorter than 5 bases. -/
def filterShort5 : SEFilter := fun r _ => decide (r.len < 5)

/-- A filter firing on reads shorter than 3 bases. -/
def filterShort3 : SEFilter := fun r _ => decide (r.len < 3)

/-- Witness for C2: concrete filters and reads under mode "both", and a
filter2-absent redirector under the same requested mode. -/
theorem spec_C2_witness :
    ("both" = "any" ∨ "both" = "both" ∨ "both" = "first")
    ∧ ((PairedRedirector.init true (some filterShort5) (some filterShort3) "both").map
        (fun pr => pr.discards readACGT readEmpty [] [])
          = .ok (some (filterShort5 readACGT [] && filterShort3 readEmpty [])))
    ∧ ((PairedRedirector.init true (some filterShort5) none "both").map
        (fun pr => pr.discards readACGT readEmpty [] [])
          = .ok (some (filterShort5 readACGT []))) :=
  ⟨by decide,
   (spec_C2 true filterShort5 filterShort3 readACGT readEmpty [] [] "both"
      (by decide)).2.1,
   (spec_C2 true filterShort5 filterShort3 readACGT readEmpty [] [] "both"
      (by decide)).2.2.2.1⟩

/-- Looking up a key appended to an association list in which it was
absent finds the appended value. -/
theorem lookup_append_right {α β : Type} [BEq α] [LawfulBEq α]
    (l : List (α × β)) (a : α) (b : β) (h : l.lookup a = none) :
    (l ++ [(a, b)]).lookup a = some b := by
  induction l with
  | nil => simp [List.lookup]
  | cons kv rest ih =>
    obtain ⟨k, v⟩ := kv
    cases hbeq : a == k with
    | true => simp [List.lookup, hbeq] at h
    | false =>
      simp only [List.lookup, hbeq] at h
      simp only [List.cons_append, List.lookup, hbeq]
      exact ih h

/-- C5: the single-end demultiplexer opens a writer for an adapter name
exactly on the first read whose last match carries that name (caching it
under the name), reuses the cached writer for every later read with the
same name without opening again — so repeating a name never opens a
second writer — and, with an empty match list and no fallback path,
silently drops the read with the whole state unchanged. -/
theorem spec_C5 (d : Demultiplexer) (r : Read) (ms : Matches) :
    (∀ m, ms.getLast? = some m → d.writers.lookup m.adapterName = none →
      ((d.call r ms).1 = DISCARD
        ∧ (d.call r ms).2.opens
            = d.opens ++ [stringReplace d.template "\x7bname\x7d" m.adapterName]
        ∧ (d.call r ms).2.writers = d.writers ++ [(m.adapterName, d.opens.length)]
        ∧ (d.call r ms).2.writes = d.writes ++ [(d.opens.length, r)]))
    ∧ (∀ m wid, ms.getLast? = some m → d.writers.lookup m.adapterName = some wid →
      ((d.call r ms).1 = DISCARD
        ∧ (d.call r ms).2.opens = d.opens
        ∧ (d.call r ms).2.writers = d.writers
        ∧ (d.call r ms).2.writes = d.writes ++ [(wid, r)]))
    ∧ (∀ m, ms.getLast? = some m → ∀ r2,
      (((d.call r ms).2).call r2 ms).2.opens = (d.call r ms).2.opens)
    ∧ (ms = [] → d.untrimmed_path = none → d.untrimmed_writer = none →
      d.call r ms = (DISCARD, d)) := by
  refine ⟨?_, ?_, ?_, ?_⟩
  · intro m hlast hlook
    simp [Demultiplexer.call, hlast, hlook]
  · intro m wid hlast hlook
    simp [Demultiplexer.call, hlast, hlook]
  · intro m hlast r2
    cases hlook : d.writers.lookup m.adapterName with
    | some wid => simp [Demultiplexer.call, hlast, hlook]
    | none =>
      simp [Demultiplexer.call, hlast, hlook,
        lookup_append_right d.writers m.adapterName d.opens.length hlook]
  · intro hms hp hw
    subst hms
    simp [Demultiplexer.call, hp, hw]

/-- A single-end demultiplexer fixture with no fallback path. -/
def demuxFixture : Demultiplexer := Demultiplexer.init "out_\x7bname\x7d.fq" none

/-- Witness for C5: the first read for adapter "adA" opens exactly one
writer; a second read with the same name opens nothing and reuses it. -/
theorem spec_C5_witness :
    ((demuxFixture.call readACGT [matchA]).1 = DISCARD
      ∧ (demuxFixture.call readACGT [matchA]).2.opens
          = demuxFixture.opens
            ++ [stringReplace demuxFixture.template "\x7bname\x7d" matchA.adapterName]
      ∧ (demuxFixture.call readACGT [matchA]).2.writers
          = demuxFixture.writers ++ [(matchA.adapterName, demuxFixture.opens.length)]
      ∧ (demuxFixture.call readACGT [matchA]).2.writes
          = demuxFixture.writes ++ [(demuxFixture.opens.length, readACGT)])
    ∧ (((demuxFixture.call readACGT [matchA]).2.call readACGT [matchA]).1 = DISCARD
      ∧ ((demuxFixture.call readACGT [matchA]).2.call readACGT [matchA]).2.opens
          = (demuxFixture.call readACGT [matchA]).2.opens
      ∧ ((demuxFixture.call readACGT [matchA]).2.call readACGT [matchA]).2.writers
          = (demuxFixture.call readACGT [matchA]).2.writers
      ∧ ((demuxFixture.call readACGT [matchA]).2.call readACGT [matchA]).2.writes
          = (demuxFixture.call readACGT [matchA]).2.writes ++ [(0, readACGT)]) :=
  ⟨(spec_C5 demuxFixture readACGT [matchA]).1 matchA (by decide) (by decide),
   (spec_C5 (demuxFixture.call readACGT [matchA]).2 readACGT [matchA]).2.1 matchA 0
     (by decide) (by decide)⟩

/-- C4: the combinatorial demultiplexer with no `untrimmed_name`
fallback, on a pair with at least one unmatched side whose raw key is
not cached, reports consumed while leaving the state — counters, logs
and cache — entirely unchanged; the cache is keyed by the raw
pre-substitution `(name1, name2)` pair: a cached raw key is reused with
no new open, and any entry ever added is stored under the raw key. -/
theorem spec_C4 (cd : CombinatorialDemultiplexer) (read1 read2 : Read)
    (matches1 matches2 : Matches) :
    (cd.untrimmed_name = none → (matches1 = [] ∨ matches2 = []) →
      cd.writers.lookup (rawKey matches1 matches2) = none →
      cd.call read1 read2 matches1 matches2 = (DISCARD, cd))
    ∧ (∀ w1 w2, cd.writers.lookup (rawKey matches1 matches2) = some (w1, w2) →
      ((cd.call read1 read2 matches1 matches2).2.opens = cd.opens
        ∧ (cd.call read1 read2 matches1 matches2).2.writers = cd.writers
        ∧ (cd.call read1 read2 matches1 matches2).2.writes
            = cd.writes ++ [(w1, read1), (w2, read2)]))
    ∧ ((cd.call read1 read2 matches1 matches2).2.writers = cd.writers
      ∨ ∃ ws, (cd.call read1 read2 matches1 matches2).2.writers
          = cd.writers ++ [(rawKey matches1 matches2, ws)]) := by
  refine ⟨?_, ?_, ?_⟩
  · intro hu hempty hlook
    rcases hempty with he | he
    · subst he
      cases h2 : matches2.getLast? <;>
        simp only [rawKey, h2, List.getLast?_nil, Option.map_some', Option.map_none']
          at hlook <;>
        simp [CombinatorialDemultiplexer.call, rawKey, h2, hlook, hu]
    · subst he
      cases h1 : matches1.getLast? <;>
        simp only [rawKey, h1, List.getLast?_nil, Option.map_some', Option.map_none']
          at hlook <;>
        simp [CombinatorialDemultiplexer.call, rawKey, h1, hlook, hu]
  · intro w1 w2 hlook
    cases h1 : matches1.getLast? <;> cases h2 : matches2.getLast? <;>
      simp only [rawKey, h1, h2, Option.map_some', Option.map_none'] at hlook <;>
      simp [CombinatorialDemultiplexer.call, rawKey, h1, h2, hlook]
  · cases hlook : cd.writers.lookup (rawKey matches1 matches2) with
    | some ws =>
      left
      cases h1 : matches1.getLast? <;> cases h2 : matches2.getLast? <;>
        simp only [rawKey, h1, h2, Option.map_some', Option.map_none'] at hlook <;>
        simp [CombinatorialDemultiplexer.call, rawKey, h1, h2, hlook]
    | none =>
      cases h1 : matches1.getLast? <;> cases h2 : matches2.getLast? <;>
        cases hu : cd.untrimmed_name <;>
          simp only [rawKey, h1, h2, Option.map_some', Option.map_none'] at hlook <;>
          first
            | (left
               simp [CombinatorialDemultiplexer.call, rawKey, hlook, h1, h2, hu]
               done)
            | (right
               exact ⟨(cd.opens.length, cd.opens.length + 1),
                 by simp [CombinatorialDemultiplexer.call, rawKey, hlook, h1, h2, hu]⟩)

/-- A combinatorial demultiplexer fixture with no untrimmed fallback. -/
def combFixture : CombinatorialDemultiplexer :=
  CombinatorialDemultiplexer.init "o_\x7bname1\x7d_\x7bname2\x7d.1.fq"
    "o_\x7bname1\x7d_\x7bname2\x7d.2.fq" none

/-- Witness for C4: a pair whose second side is unmatched, under a fresh
fixture with no fallback, is discarded with the state unchanged. -/
theorem spec_C4_witness :
    combFixture.untrimmed_name = none
    ∧ combFixture.writers.lookup (rawKey [matchA] []) = none
    ∧ combFixture.call readACGT readACGT [matchA] [] = (DISCARD, combFixture) :=
  ⟨rfl, by decide,
   (spec_C4 combFixture readACGT readACGT [matchA] []).1 rfl (Or.inr rfl) (by decide)⟩

/-- C7 counterexample: after one routed read the demultiplexer caches
writer 0; the first `close()` releases it once, and a second `close()`
releases it again — the underlying writer is released twice, refuting
"does not release any underlying Writer more than once". -/
theorem spec_C7_counterexample :
    ((demuxFixture.call readACGT [matchA]).2.close).closes = [0]
    ∧ (((demuxFixture.call readACGT [matchA]).2.close).close).closes = [0, 0] := by
  constructor <;> rfl

/-- C7 (amended): one `close()` call on any demultiplexer variant never
fails and releases exactly the lazily opened writers once — cache values
plus the untrimmed writer when it was opened, skipping unopened slots;
but no closed flag is kept, so a second `close()` releases them all a
second time: idempotence relies on the underlying writers' own close
being idempotent. -/
theorem spec_C7 (d : Demultiplexer) (cd : CombinatorialDemultiplexer)
    (pd : PairedDemultiplexer) :
    (d.close).closes = d.closes ++ d.releaseList
    ∧ ((d.close).close).closes = d.closes ++ d.releaseList ++ d.releaseList
    ∧ (cd.close).closes = cd.closes ++ cd.releaseList
    ∧ ((cd.close).close).closes = cd.closes ++ cd.releaseList ++ cd.releaseList
    ∧ pd.close = { demultiplexer1 := pd.demultiplexer1.close,
                   demultiplexer2 := pd.demultiplexer2.close } := by
  refine ⟨?_, ?_, ?_, ?_, rfl⟩
  · cases hu : d.untrimmed_writer <;>
      simp [Demultiplexer.close, Demultiplexer.releaseList, hu]
  · cases hu : d.untrimmed_writer <;>
      simp [Demultiplexer.close, Demultiplexer.releaseList, hu, List.append_assoc]
  · simp [CombinatorialDemultiplexer.close, CombinatorialDemultiplexer.releaseList]
  · simp [CombinatorialDemultiplexer.close, CombinatorialDemultiplexer.releaseList,
      List.append_assoc]
